import Mathlib

/-!
Verification development for the AudioDrip music bot (src/bot.py).

The definitions below are a shallow embedding of the bot's pure logic and of
the effectful handlers' control flow.  Effectful handlers are modelled as
functions producing an explicit list of events (messages edited, files sent,
files removed, ...) together with the updated per-user session state; the
outcomes of external collaborators (the transport, the transcoder, the
filesystem) are supplied as explicit oracle parameters.  Python machine
behaviour that matters is modelled explicitly (negative list indexing,
`int()` parsing, string `strip`/`split`); Python ints are Lean `Int`/`Nat`
(they are arbitrary precision in both).
-/

namespace AudioDrip

/-! ## Character and string helpers

These model the fragments of Python string behaviour used by bot.py.
Only ASCII digits are modelled (the bot's regexes are applied to
user-typed timestamps and to callback payloads generated by the bot). -/

/-- ASCII digit test, modelling `\d` of the source's regexes on ASCII input. -/
def isDigitChar (c : Char) : Bool := 48 ≤ c.toNat && c.toNat ≤ 57

/-- Numeric value of an ASCII digit character. -/
def digitVal (c : Char) : Nat := c.toNat - 48

/-- Decimal value of a digit string, modelling Python `int(...)` on a
nonempty all-digit string (leading zeros allowed, as in Python). -/
def decodeDigits (cs : List Char) : Nat :=
  cs.foldl (fun a c => 10 * a + digitVal c) 0

/-- Python `str.strip()`: drop leading and trailing whitespace. -/
def pyStrip (cs : List Char) : List Char :=
  ((cs.dropWhile Char.isWhitespace).reverse.dropWhile Char.isWhitespace).reverse

/-- Python `str.split(sep)` for a single-character separator:
splits on every occurrence, keeping empty fields. -/
def splitOnChar (sep : Char) : List Char → List (List Char)
  | [] => [[]]
  | c :: rest =>
    if c = sep then [] :: splitOnChar sep rest
    else
      match splitOnChar sep rest with
      | [] => [[c]]
      | g :: gs => (c :: g) :: gs

/-- Python `int(s)` on a string, restricted to the shapes the bot can
receive: optional sign followed by ASCII digits, with surrounding
whitespace stripped.  `none` models a raised `ValueError`. -/
def pyInt (s : String) : Option Int :=
  match pyStrip s.toList with
  | [] => none
  | '-' :: rest =>
    if rest ≠ [] ∧ rest.all isDigitChar then some (-(decodeDigits rest : Int)) else none
  | '+' :: rest =>
    if rest ≠ [] ∧ rest.all isDigitChar then some ((decodeDigits rest : Int)) else none
  | cs =>
    if cs.all isDigitChar then some ((decodeDigits cs : Int)) else none

/-- Python list indexing `l[i]` with negative-index semantics:
`0 ≤ i < len` reads from the front, `-len ≤ i < 0` reads from the back,
anything else raises `IndexError` (modelled as `none`). -/
def pyGetI (l : List α) (i : Int) : Option α :=
  if 0 ≤ i then l.get? i.toNat
  else if 0 ≤ (l.length : Int) + i then l.get? ((l.length : Int) + i).toNat
  else none

/-- `_sanitize_filename` (bot.py:105-108): remove the characters
`<>:"/\|?*`, strip whitespace, default to `"audio"` when empty. -/
def isForbiddenChar (c : Char) : Bool :=
  c = '<' || c = '>' || c = ':' || c = '"' || c = '/' || c = '\\' ||
  c = '|' || c = '?' || c = '*'

/-- `_sanitize_filename` (bot.py:105-108). -/
def sanitizeFilename (s : String) : String :=
  let cs := s.toList.filter (fun c => !isForbiddenChar c)
  let stripped := pyStrip cs
  if stripped.isEmpty then "audio" else String.mk stripped

/-! ## Timestamp parser (`_parse_timestamp_to_seconds`, bot.py:110-139) -/

/-- A colon-separated field of the `mm:ss` / `hh:mm:ss` grammar:
one or two ASCII digits (the regex `\d{1,2}` in bot.py:120). -/
def isField (cs : List Char) : Bool :=
  (cs.length = 1 || cs.length = 2) && cs.all isDigitChar

/-- One optional group `(\d+)u` of the compound regex
`(?:(\d+)h)?(?:(\d+)m)?(?:(\d+)s)?` (bot.py:133).  Takes the maximal
digit run; the group matches only if the unit letter follows at least
one digit, otherwise the input is left untouched. -/
def tryGroup (cs : List Char) (u : Char) : Option Nat × List Char :=
  let ds := cs.takeWhile isDigitChar
  match cs.dropWhile isDigitChar with
  | [] => (none, cs)
  | c :: rest =>
    if c = u ∧ ds ≠ [] then (some (decodeDigits ds), rest) else (none, cs)

/-- The compound-suffix grammar `[Nh][Nm][Ns]` (bot.py:132-138): all three
groups optional, at least one present, whole string consumed. -/
def compoundParse (cs : List Char) : Option Nat :=
  let (h, cs1) := tryGroup cs 'h'
  let (m, cs2) := tryGroup cs1 'm'
  let (s, cs3) := tryGroup cs2 's'
  if cs3.isEmpty && (h.isSome || m.isSome || s.isSome) then
    some ((h.getD 0) * 3600 + (m.getD 0) * 60 + (s.getD 0))
  else none

/-- Core of `_parse_timestamp_to_seconds` after stripping (bot.py:114-139).
Grammars tried in order: pure digits; `mm:ss` / `hh:mm:ss` with 1-2 digits
per field (seconds ≥ 60 rejected, and minutes ≥ 60 rejected in the
three-field form; the source's negativity checks are vacuous for values
parsed from digits); compound unit suffixes.  `Except.error` models a
raised `ValueError` carrying the source's message. -/
def parseTsCore (cs : List Char) : Except String Nat :=
  if cs.isEmpty then .error "Empty timestamp"
  else if cs.all isDigitChar then .ok (decodeDigits cs)
  else
    match splitOnChar ':' cs with
    | [mf, sf] =>
      if isField mf && isField sf then
        if 60 ≤ decodeDigits sf then .error "Invalid mm:ss"
        else .ok (decodeDigits mf * 60 + decodeDigits sf)
      else
        match compoundParse cs with
        | some n => .ok n
        | none => .error ("Invalid timestamp format: " ++ String.mk cs)
    | [hf, mf, sf] =>
      if isField hf && isField mf && isField sf then
        if 60 ≤ decodeDigits mf ∨ 60 ≤ decodeDigits sf then .error "Invalid hh:mm:ss"
        else .ok (decodeDigits hf * 3600 + decodeDigits mf * 60 + decodeDigits sf)
      else
        match compoundParse cs with
        | some n => .ok n
        | none => .error ("Invalid timestamp format: " ++ String.mk cs)
    | _ =>
      match compoundParse cs with
      | some n => .ok n
      | none => .error ("Invalid timestamp format: " ++ String.mk cs)

/-- `_parse_timestamp_to_seconds` (bot.py:110-139): strips the input and
parses it. -/
def parseTimestamp (value : String) : Except String Nat :=
  parseTsCore (pyStrip value.toList)

/-! ## Search candidates and selection resolution
(`search_songs` bot.py:163-235, `handle_music_request` bot.py:482-588,
`handle_download_callback` bot.py:590-872) -/

/-- One entry of the result dict built by `search_songs` (bot.py:218-227).
`index` is the 1-based ordinal; `id` is the source (video) identifier. -/
structure Candidate where
  index : Nat
  title : String
  uploader : String
  duration : String
  url : String
  id : String
  view_count : Nat
  thumbnail_url : Option String
deriving DecidableEq, Repr

/-- `'view_count': entry.get('view_count', 0)` (bot.py:225): an absent
view count is stored as the integer 0, indistinguishable from a genuine
zero count. -/
def candidateViewCount (vc : Option Nat) : Nat := vc.getD 0

/-- Rounding of a nonnegative rational `n / d` to the nearest integer with
ties going to the even neighbour.  This models CPython's `format(x, '.0f')`
(and, scaled, `'.1f'`) decimal rounding of the float `n / d`; for the
divisors used below (1000 with n < 10^6, and 100000) the binary double of
`n / d` rounds to the same integer as the exact rational at every non-tie,
and every `.0f` tie (n ≡ 500 mod 1000) is exactly representable, so the
model is exact except for `.1f` ties (n ≡ 50000 mod 100000), where the
double's closest representation decides instead. -/
def roundHalfEven (n d : Nat) : Nat :=
  let q := n / d
  let r := n % d
  if d < 2 * r then q + 1
  else if 2 * r < d then q
  else if q % 2 = 0 then q else q + 1

/-- `f"{views/1000000:.1f}"` (bot.py:526): one-decimal rendering of
`views / 10^6`, via tenths-of-a-million. -/
def fmtMillions (views : Nat) : String :=
  let t := roundHalfEven views 100000
  toString (t / 10) ++ "." ++ toString (t % 10)

/-- View-count humanization in `handle_music_request` (bot.py:522-532).
The outer `if views:` is Python truthiness: a zero count (genuine or the
absent-count default) takes the "Views not available" branch. -/
def viewText (views : Nat) : String :=
  if views ≠ 0 then
    if 1000000 ≤ views then fmtMillions views ++ "M views"
    else if 1000 ≤ views then toString (roundHalfEven views 1000) ++ "K views"
    else toString views ++ " views"
  else "Views not available"

/-- Outcome of the selection-resolution portion of
`handle_download_callback` (bot.py:606-872).  Only `.proceed` continues
into the download/delivery phase; every other outcome sends the indicated
message and returns with no download or delivery side effects. -/
inductive SelectionOutcome where
  /-- `selected = search_results[result_index]` succeeded; the download of
  this candidate starts (bot.py:625-640). -/
  | proceed (c : Candidate)
  /-- "Invalid selection. Please search again!" (bot.py:853-858). -/
  | invalidSelection
  /-- "Invalid callback data. Please search again!" (bot.py:859-864). -/
  | invalidCallback
  /-- The `data == "cancel"` acknowledgement (bot.py:606-613). -/
  | cancelled
  /-- An exception reached the outer handler: "Something went wrong!"
  (bot.py:866-872). -/
  | somethingWentWrong
deriving DecidableEq, Repr

/-- Ordinal resolution in `handle_download_callback` (bot.py:619-625,853-858):
`result_index = int(parts[1]) - 1`; proceed when
`result_index < len(search_results)` — a Python comparison that lets
negative indices through — otherwise reply "invalid selection".  The source
identifier `vid` (`video_id`, bot.py:620) is bound but never consulted. -/
def resolveSelection (searchResults : List Candidate) (ord : Int)
    (vid : String) : SelectionOutcome :=
  let result_index := ord - 1
  if result_index < (searchResults.length : Int) then
    match pyGetI searchResults result_index with
    | some c => .proceed c
    | none => .somethingWentWrong
  else .invalidSelection

/-- The callback-data dispatch of `handle_download_callback`
(bot.py:606-872): "cancel" short-circuits; otherwise the data is split on
underscores, must have ≥ 3 parts with head "download", the second part is
parsed as an int (a parse failure raises into the outer handler), and the
ordinal is resolved against the current session's candidate list. -/
def handleCallback (data : String) (searchResults : List Candidate) :
    SelectionOutcome :=
  if data = "cancel" then .cancelled
  else
    let parts := splitOnChar '_' data.toList
    if 3 ≤ parts.length ∧ parts.getD 0 [] = "download".toList then
      match pyInt (String.mk (parts.getD 1 [])) with
      | some ord => resolveSelection searchResults ord (String.mk (parts.getD 2 []))
      | none => .somethingWentWrong
    else .invalidCallback

/-! ## Resilient action executor (`_retry_async`, bot.py:53-65)

The asynchronous operation is modelled as a function from the call number
(0-based) to a result; the `random.uniform(0, jitter)` sample drawn before
retry number `k` (1-based) is supplied by the oracle `u`.  The result
carries the final outcome, the total number of calls made, and the list of
computed backoff delays.  Delays are exact rationals (the source computes
them in floating point; the formula is the same). -/

def retryRun (op : Nat → Except ε α) (baseDelay : ℚ) (u : Nat → ℚ) :
    Nat → Nat → Except ε α × Nat × List ℚ
  | callIdx, 0 =>
    (match op callIdx with
     | .ok a => (.ok a, 1, [])
     | .error e => (.error e, 1, []))
  | callIdx, r + 1 =>
    (match op callIdx with
     | .ok a => (.ok a, 1, [])
     | .error _ =>
       let attempt := callIdx + 1
       let d := baseDelay * 2 ^ (attempt - 1) + u attempt
       let rest := retryRun op baseDelay u (callIdx + 1) r
       (rest.1, rest.2.1 + 1, d :: rest.2.2))

/-- `_retry_async(func, retries, base_delay, jitter)` (bot.py:53-65):
call the operation; on failure, if `retries` have been exhausted re-raise
the last error unchanged, otherwise wait
`base_delay * 2^(attempt-1) + uniform(0, jitter)` and try again.
`jitter` only bounds the oracle `u`, which is constrained in theorems. -/
def retryAsync (op : Nat → Except ε α) (retries : Nat)
    (baseDelay jitter : ℚ) (u : Nat → ℚ) : Except ε α × Nat × List ℚ :=
  retryRun op baseDelay u 0 retries

/-! ## Transcoder invocation (`_ffmpeg_cut_audio`, bot.py:141-161) -/

/-- The argv list built at bot.py:146-154. -/
def ffmpegCutCmd (inputPath : String) (startSec endSec : Int)
    (outputPath : String) : List String :=
  ["ffmpeg", "-y",
   "-ss", toString startSec,
   "-t", toString (endSec - startSec),
   "-i", inputPath,
   "-vn",
   "-acodec", "libmp3lame", "-b:a", "128k",
   outputPath]

/-- `_ffmpeg_cut_audio` up to the subprocess call (bot.py:141-155): the
guard `start_sec < 0 or end_sec <= start_sec` raises before any command is
built; otherwise the returned argv is what `subprocess.run` receives. -/
def ffmpegCutAudio (inputPath : String) (startSec endSec : Int)
    (outputPath : String) : Except String (List String) :=
  if startSec < 0 ∨ endSec ≤ startSec then
    .error "End time must be greater than start time"
  else .ok (ffmpegCutCmd inputPath startSec endSec outputPath)

/-- Timestamp validation at the top of `cut_command` (bot.py:929-940):
parse both arguments and require `end > start`; any failure is reported
as "Invalid timestamps" and the command returns before touching the
session or the transcoder. -/
def cutValidate (a b : String) : Except String (Nat × Nat) :=
  match parseTimestamp a with
  | .error m => .error m
  | .ok s =>
    match parseTimestamp b with
    | .error m => .error m
    | .ok e => if e ≤ s then .error "End must be greater than start" else .ok (s, e)

/-- Composition of `cut_command`'s validation with `_ffmpeg_cut_audio`
(bot.py:929-969 and 141-161): the transcoder argv actually requested for
a pair of timestamp strings, or the error that stopped the request. -/
def cutPipeline (a b inputPath outputPath : String) :
    Except String (List String) :=
  match cutValidate a b with
  | .error m => .error m
  | .ok (s, e) => ffmpegCutAudio inputPath (s : Int) (e : Int) outputPath

/-! ## Per-user session state (`context.user_data`)

Only the keys the bot reads and writes are modelled.  `search_results` is
passed separately to the selection functions above; the last-audio triple
(bot.py:789-791, 943-945) lives here. -/

structure Session where
  lastAudioPath : Option String
  lastAudioTitle : Option String
  lastAudioArtist : Option String
deriving DecidableEq, Repr

/-! ## Download delivery phase
(`handle_download_callback`, bot.py:653-828, after the fetch succeeded
and the downloaded file was located) -/

/-- The metadata of a fetched track used by the delivery phase
(from the dict returned by `download_song_by_url`, bot.py:319-326). -/
structure SongInfo where
  title : String
  uploader : String
  thumbnail : Option String
deriving DecidableEq, Repr

/-- Outcomes of the external collaborators during delivery:
whether the (retry-wrapped) `send_audio` succeeded, whether the fallback
`send_document` succeeded, and whether the `shutil.copy2` into the cache
succeeded. -/
structure DeliverOracles where
  audioOk : Bool
  docOk : Bool
  cacheOk : Bool
deriving DecidableEq, Repr

/-- Observable events of the delivery phase, in program order. -/
inductive DlEvent where
  /-- The over-limit edit reporting the measured size (bot.py:656-663). -/
  | editTooLarge (sizeBytes : Nat)
  /-- `os.remove` of a working file (bot.py:664, 818-828). -/
  | removeFile (path : String)
  /-- The "Almost ready / Uploading" progress edit (bot.py:668-675). -/
  | editUploading
  /-- The `UPLOAD_AUDIO` chat action (bot.py:703-706). -/
  | chatAction
  /-- A successful `send_audio` delivery (bot.py:712-729). -/
  | sentAudio (path : String)
  /-- A successful fallback `send_document` delivery (bot.py:744-757). -/
  | sentDocument (path : String)
  /-- The "Sending failed" edit inside the fallback failure handler
  (bot.py:760-768). -/
  | editSendingFailed
  /-- `shutil.copy2(song_file, cached_path)` (bot.py:787). -/
  | cacheCopy (src dst : String)
  /-- The "Success!" edit (bot.py:796-806). -/
  | editSuccess
  /-- The "We couldn't send the track." edit (bot.py:807-816). -/
  | editCouldNotSend
deriving DecidableEq, Repr

/-- The on-disk cache path derived for a delivered track
(bot.py:783-785): `cache/<sanitized(title-uploader)>.mp3` under the
working directory. -/
def cachedPathFor (info : SongInfo) : String :=
  "cache/" ++ sanitizeFilename (info.title ++ "-" ++ info.uploader) ++ ".mp3"

/-- The delivery phase of `handle_download_callback` (bot.py:653-828),
entered after `download_song_by_url` returned and the file was found.
Models, in order: the 50MB size gate (over-limit: report measured size,
delete the file, return); the progress edit, chat action and the
audio-then-document send attempts; the unconditional cache copy and
session update (skipped only if the copy itself fails, in which case the
failure is logged and swallowed); the final status edit; and the
unconditional cleanup of the working file and thumbnail.  File-handle
bookkeeping (open/close/rewind) and the thumbnail payload validation
(JPEG ≤ 200KB, bot.py:689-700) have no observable effect modelled here.
Returns the event trace and the updated session. -/
def deliverDownloadedFile (songFile : String) (info : SongInfo)
    (fileSize : Nat) (o : DeliverOracles) (sess : Session) :
    List DlEvent × Session :=
  if 50 * 1024 * 1024 < fileSize then
    ([.editTooLarge fileSize, .removeFile songFile], sess)
  else
    let sendEvs : List DlEvent :=
      if o.audioOk then [.sentAudio songFile]
      else if o.docOk then [.sentDocument songFile]
      else [.editSendingFailed]
    let sentOk := o.audioOk || o.docOk
    let cacheEvs : List DlEvent :=
      if o.cacheOk then [.cacheCopy songFile (cachedPathFor info)] else []
    let sess' :=
      if o.cacheOk then
        { sess with
          lastAudioPath := some (cachedPathFor info),
          lastAudioTitle := some info.title,
          lastAudioArtist := some info.uploader }
      else sess
    let statusEv : DlEvent := if sentOk then .editSuccess else .editCouldNotSend
    let cleanup : List DlEvent :=
      .removeFile songFile ::
        (match info.thumbnail with
         | some t => [.removeFile t]
         | none => [])
    ([.editUploading, .chatAction] ++ sendEvs ++ cacheEvs ++ [statusEv] ++ cleanup,
     sess')

/-! ## Trim subsystem (`cut_command`, bot.py:910-1025) -/

/-- Outcomes of the external collaborators during a trim:
whether `os.path.exists(last_audio)` holds, the transcoder outcome
(`some err` models a nonzero exit with diagnostic `err`), the
`os.path.getsize(output_path)` result (`none` models a raised exception,
swallowed at bot.py:988-989), and whether the clip send succeeded. -/
structure CutOracles where
  lastAudioExists : Bool
  ffmpegError : Option String
  clipSize : Option Nat
  sendOk : Bool
deriving DecidableEq, Repr

/-- Observable events of `cut_command`, in program order. -/
inductive CutEvent where
  /-- `_ensure_cache_dir` (bot.py:81-88), called by `_cleanup_cache` and
  again when preparing the output path. -/
  | ensureCacheDir
  /-- `_cleanup_cache` removing an expired cache file (bot.py:95-99). -/
  | removeCacheFile (path : String)
  /-- The usage reply for a wrong argument count (bot.py:918-927). -/
  | usageMessage
  /-- The "Invalid timestamps" reply (bot.py:934-940). -/
  | invalidTimestamps (msg : String)
  /-- The "couldn't find your last audio file" guidance (bot.py:946-952). -/
  | noLastAudio
  /-- The "Cutting ..." progress message (bot.py:960-965). -/
  | progressMsg
  /-- The transcoder invocation (bot.py:969, via `_ffmpeg_cut_audio`). -/
  | ffmpegRun (inputPath : String) (startSec durationSec : Nat) (outputPath : String)
  /-- The "Failed to cut audio" edit (bot.py:970-976). -/
  | editCutFailed (msg : String)
  /-- `os.remove` of the clip output file (bot.py:982, 1020-1025). -/
  | removeClip (path : String)
  /-- The "Clipped file exceeds 50MB" edit (bot.py:983-987). -/
  | editClipTooLarge
  /-- The `UPLOAD_AUDIO` chat action (bot.py:992-995). -/
  | chatAction
  /-- A successful clip `send_audio` (bot.py:997-1009). -/
  | sentClip (path : String)
  /-- The "Sent the clipped audio!" edit (bot.py:1010). -/
  | editSentOk
  /-- The "Failed to send clipped audio" edit (bot.py:1011-1019). -/
  | editSendFailed
deriving DecidableEq, Repr

/-- The clip output path prepared at bot.py:955-957:
`cache/<sanitized(title-cut-start-end)>.mp3`. -/
def cutOutputPath (title : String) (s e : Nat) : String :=
  "cache/" ++ sanitizeFilename (title ++ "-cut-" ++ toString s ++ "-" ++ toString e) ++ ".mp3"

/-- The transcode-and-deliver tail of `cut_command` (bot.py:955-1025),
entered once the timestamps are valid and the cached audio exists.
In order: prepare the output path, post the progress message, run the
transcoder (failure: edit and return, with no cleanup of the output
path); check the clip size (over 50MB: delete the clip, edit, return;
a `getsize` exception is swallowed and treated as passing); send the
clip (chat action, then audio send with success or failure edit); and
finally delete the clip output file. -/
def cutTranscodePhase (inputPath outputPath : String) (s e : Nat)
    (o : CutOracles) : List CutEvent :=
  let pre : List CutEvent :=
    [.ensureCacheDir, .progressMsg, .ffmpegRun inputPath s (e - s) outputPath]
  match o.ffmpegError with
  | some err => pre ++ [.editCutFailed err]
  | none =>
    let sendPhase : List CutEvent :=
      if o.sendOk then [.chatAction, .sentClip outputPath, .editSentOk, .removeClip outputPath]
      else [.chatAction, .editSendFailed, .removeClip outputPath]
    match o.clipSize with
    | some sz =>
      if 50 * 1024 * 1024 < sz then pre ++ [.removeClip outputPath, .editClipTooLarge]
      else pre ++ sendPhase
    | none => pre ++ sendPhase

/-- `cut_command` (bot.py:910-1025).  In order: the opportunistic cache
sweep (`_cleanup_cache()`, bot.py:915 — ensures the cache directory and
removes the files listed in `expiredCache`, the directory entries whose
modification time exceeded the age threshold); the argument-count check;
timestamp validation; the last-audio lookup (absent from the session or
missing on disk: guidance reply and return); then the transcode phase.
The session is never modified by `cut_command`, so only the event trace
is returned. -/
def cutCommand (args : List String) (sess : Session) (o : CutOracles)
    (expiredCache : List String) : List CutEvent :=
  let sweep : List CutEvent :=
    .ensureCacheDir :: expiredCache.map .removeCacheFile
  if args.length ≠ 2 then sweep ++ [.usageMessage]
  else
    match cutValidate (args.getD 0 "") (args.getD 1 "") with
    | .error msg => sweep ++ [.invalidTimestamps msg]
    | .ok (s, e) =>
      match sess.lastAudioPath with
      | none => sweep ++ [.noLastAudio]
      | some inputPath =>
        if o.lastAudioExists then
          sweep ++ cutTranscodePhase inputPath
            (cutOutputPath (sess.lastAudioTitle.getD "audio") s e) s e o
        else sweep ++ [.noLastAudio]

/-! ## Concrete data used in statements -/

/-- Decimal rendering (1-2 digits, no leading zero beyond one digit) of a
number below 100, used to quantify over all `hh:mm:ss` field literals. -/
def natToField (n : Nat) : List Char :=
  if n < 10 then [Char.ofNat (48 + n)]
  else [Char.ofNat (48 + n / 10), Char.ofNat (48 + n % 10)]

/-- Candidate list of the second (current) search in the staleness
counterexamples. -/
def sampleB1 : Candidate :=
  ⟨1, "Track B1", "Artist B", "3:00", "urlB1", "idB1", 1000, none⟩

/-- Second candidate of the current search. -/
def sampleB2 : Candidate :=
  ⟨2, "Track B2", "Artist B", "3:10", "urlB2", "idB2", 1000, none⟩

/-- Third candidate of the current search. -/
def sampleB3 : Candidate :=
  ⟨3, "Track B3", "Artist B", "3:20", "urlB3", "idB3", 1000, none⟩

/-- A session that has a delivered audio on record. -/
def sampleSession : Session :=
  ⟨some "cache/song.mp3", some "Song", some "Artist"⟩

/-- A fresh session with no delivered audio. -/
def emptySession : Session := ⟨none, none, none⟩

/-! ## Helper lemmas -/

theorem dropWhile_eq_self_of_all {p : Char → Bool} :
    ∀ {cs : List Char}, (∀ c ∈ cs, p c = false) → cs.dropWhile p = cs
  | [], _ => rfl
  | c :: t, h => by
    have hc : p c = false := h c (List.mem_cons_self c t)
    simp [List.dropWhile_cons, hc]

theorem pyStrip_eq_self {cs : List Char}
    (h : ∀ c ∈ cs, c.isWhitespace = false) : pyStrip cs = cs := by
  unfold pyStrip
  rw [dropWhile_eq_self_of_all h]
  rw [dropWhile_eq_self_of_all (fun c hc => h c (List.mem_reverse.mp hc))]
  exact List.reverse_reverse cs

theorem not_whitespace_of_digit {c : Char} (h : isDigitChar c = true) :
    c.isWhitespace = false := by
  cases hw : c.isWhitespace
  · rfl
  · exfalso
    have h48 : 48 ≤ c.toNat ∧ c.toNat ≤ 57 := by
      simpa [isDigitChar] using h
    simp only [Char.isWhitespace, Bool.or_eq_true, decide_eq_true_eq] at hw
    rcases hw with ((rfl | rfl) | rfl) | rfl <;> exact absurd h48 (by decide)

theorem no_colon_of_all_digit {cs : List Char}
    (h : cs.all isDigitChar = true) : ':' ∉ cs := by
  intro hmem
  have hc := List.all_eq_true.mp h ':' hmem
  exact absurd hc (by decide)

theorem splitOnChar_ne_nil (sep : Char) : ∀ cs, splitOnChar sep cs ≠ []
  | [] => by simp [splitOnChar]
  | c :: rest => by
    by_cases hc : c = sep
    · simp [splitOnChar, hc]
    · simp only [splitOnChar, if_neg hc]
      cases h : splitOnChar sep rest <;> simp

theorem splitOnChar_no_sep {sep : Char} :
    ∀ {cs : List Char}, sep ∉ cs → splitOnChar sep cs = [cs]
  | [], _ => rfl
  | c :: rest, h => by
    have hc : ¬ c = sep := fun he => h (he ▸ List.mem_cons_self c rest)
    have ih : splitOnChar sep rest = [rest] :=
      splitOnChar_no_sep (fun hm => h (List.mem_cons_of_mem _ hm))
    simp [splitOnChar, if_neg hc, ih]

theorem splitOnChar_append {sep : Char} :
    ∀ {f : List Char}, sep ∉ f → ∀ r,
      splitOnChar sep (f ++ sep :: r) = f :: splitOnChar sep r
  | [], _, r => by simp [splitOnChar]
  | c :: f', h, r => by
    have hc : ¬ c = sep := fun he => h (he ▸ List.mem_cons_self c f')
    have ih := splitOnChar_append (f := f')
      (fun hm => h (List.mem_cons_of_mem _ hm)) r
    simp only [List.cons_append, splitOnChar, if_neg hc, List.append_eq]
    rw [ih]

/-- Bounded facts about `natToField`, discharged by evaluation. -/
theorem natToField_isField : ∀ n < 100, isField (natToField n) = true := by decide

theorem natToField_decode : ∀ n < 100, decodeDigits (natToField n) = n := by decide

theorem isField_all_digit {cs : List Char} (h : isField cs = true) :
    cs.all isDigitChar = true := by
  have := (Bool.and_eq_true _ _).mp h
  exact this.2

theorem isField_ne_nil {cs : List Char} (h : isField cs = true) : cs ≠ [] := by
  intro he
  subst he
  exact absurd h (by decide)

/-- Reduction of the parser on a literal three-field `hh:mm:ss` form. -/
theorem parseTsCore_three_fields {hf mf sf : List Char}
    (h1 : isField hf = true) (h2 : isField mf = true) (h3 : isField sf = true) :
    parseTsCore (hf ++ ':' :: (mf ++ ':' :: sf)) =
      if 60 ≤ decodeDigits mf ∨ 60 ≤ decodeDigits sf then
        .error "Invalid hh:mm:ss"
      else
        .ok (decodeDigits hf * 3600 + decodeDigits mf * 60 + decodeDigits sf) := by
  have hd1 := isField_all_digit h1
  have hd2 := isField_all_digit h2
  have hd3 := isField_all_digit h3
  have hsplit : splitOnChar ':' (hf ++ ':' :: (mf ++ ':' :: sf)) = [hf, mf, sf] := by
    rw [splitOnChar_append (no_colon_of_all_digit hd1)]
    rw [splitOnChar_append (no_colon_of_all_digit hd2)]
    rw [splitOnChar_no_sep (no_colon_of_all_digit hd3)]
  have hne : (hf ++ ':' :: (mf ++ ':' :: sf)).isEmpty = false := by
    cases hf with
    | nil => exact absurd h1 (by decide)
    | cons c t => rfl
  have hnotall : (hf ++ ':' :: (mf ++ ':' :: sf)).all isDigitChar = false := by
    cases hall : (hf ++ ':' :: (mf ++ ':' :: sf)).all isDigitChar
    · rfl
    · exfalso
      have := List.all_eq_true.mp hall ':' (by simp)
      exact absurd this (by decide)
  unfold parseTsCore
  rw [hne, hnotall, hsplit]
  simp [h1, h2, h3]

/-- The String-level counterpart: the rendered string strips to itself. -/
theorem pyStrip_three_fields {hf mf sf : List Char}
    (h1 : isField hf = true) (h2 : isField mf = true) (h3 : isField sf = true) :
    pyStrip (hf ++ ':' :: (mf ++ ':' :: sf)) = hf ++ ':' :: (mf ++ ':' :: sf) := by
  apply pyStrip_eq_self
  intro c hc
  rcases List.mem_append.mp hc with hmem | hmem
  · exact not_whitespace_of_digit (List.all_eq_true.mp (isField_all_digit h1) c hmem)
  · rcases List.mem_cons.mp hmem with rfl | hmem
    · decide
    · rcases List.mem_append.mp hmem with hmem' | hmem'
      · exact not_whitespace_of_digit (List.all_eq_true.mp (isField_all_digit h2) c hmem')
      · rcases List.mem_cons.mp hmem' with rfl | hmem''
        · decide
        · exact not_whitespace_of_digit (List.all_eq_true.mp (isField_all_digit h3) c hmem'')

/-! ## C3 -/

/-- C3: the timestamp parser satisfies `parse("75") = 75`,
`parse("1:15") = 75`, `parse("01:02:03") = 3723`, `parse("1m30s") = 90`;
`parse("")` and `parse("abc")` fail; `parse("1:75")` fails with the
seconds-≥-60 error of the two-field grammar; and every three-field
`hh:mm:ss` literal (one or two digits per field) whose minutes or seconds
field is ≥ 60 fails with the three-field error. -/
theorem c3_timestamp_parsing :
    parseTimestamp "75" = .ok 75 ∧
    parseTimestamp "1:15" = .ok 75 ∧
    parseTimestamp "01:02:03" = .ok 3723 ∧
    parseTimestamp "1m30s" = .ok 90 ∧
    parseTimestamp "" = .error "Empty timestamp" ∧
    parseTimestamp "abc" = .error "Invalid timestamp format: abc" ∧
    parseTimestamp "1:75" = .error "Invalid mm:ss" ∧
    (∀ h m s : Nat, h < 100 → m < 100 → s < 100 → 60 ≤ m ∨ 60 ≤ s →
      parseTimestamp
        (String.mk (natToField h ++ ':' :: (natToField m ++ ':' :: natToField s))) =
        .error "Invalid hh:mm:ss") := by
  refine ⟨rfl, rfl, rfl, rfl, rfl, rfl, rfl, ?_⟩
  intro h m s hh hm hs hbig
  have f1 := natToField_isField h hh
  have f2 := natToField_isField m hm
  have f3 := natToField_isField s hs
  unfold parseTimestamp
  have htl : (String.mk (natToField h ++ ':' :: (natToField m ++ ':' :: natToField s))).toList
      = natToField h ++ ':' :: (natToField m ++ ':' :: natToField s) := rfl
  rw [htl, pyStrip_three_fields f1 f2 f3, parseTsCore_three_fields f1 f2 f3]
  rw [natToField_decode m hm, natToField_decode s hs]
  exact if_pos hbig

/-- C3 witness: the general three-field clause applied at `01:75:00`. -/
theorem c3_timestamp_parsing_witness :
    parseTimestamp
      (String.mk (natToField 1 ++ ':' :: (natToField 75 ++ ':' :: natToField 0))) =
      .error "Invalid hh:mm:ss" :=
  c3_timestamp_parsing.2.2.2.2.2.2.2 1 75 0 (by decide) (by decide) (by decide)
    (Or.inl (by decide))

/-! ## C1 -/

/-- C1 counterexample: a selection event minted for a superseded search
(ordinal 2 with source id "idA2") is presented after a new search stored
`[sampleB1, sampleB2, sampleB3]`.  The handler does not reject it: it
silently resolves the ordinal against the new list and proceeds to
download the new list's second candidate, whose source id "idB2" differs
from the id carried by the event. -/
theorem c1_stale_ordinal_counterexample :
    handleCallback "download_2_idA2" [sampleB1, sampleB2, sampleB3] =
      .proceed sampleB2 ∧
    handleCallback "download_2_idA2" [sampleB1, sampleB2, sampleB3] ≠
      .invalidSelection ∧
    sampleB2.id = "idB2" ∧ "idB2" ≠ "idA2" := by
  refine ⟨by decide, by decide, rfl, by decide⟩

/-- C1 amended: selection events are resolved purely by ordinal against
the current candidate list; the source identifier carried by the event is
ignored, so a stale event is rejected only when its ordinal is out of
range for the current list — an ordinal in range (1-based) is silently
matched to the current list's candidate at that position. -/
theorem c1_stale_ordinal_silently_matched_amended :
    (∀ (l : List Candidate) (ord : Int) (vid vid' : String),
      resolveSelection l ord vid = resolveSelection l ord vid') ∧
    (∀ (l : List Candidate) (ord : Int) (vid : String),
      (l.length : Int) < ord → resolveSelection l ord vid = .invalidSelection) ∧
    (∀ (l : List Candidate) (ord : Int) (vid : String) (c : Candidate),
      1 ≤ ord → l.get? (ord.toNat - 1) = some c →
      resolveSelection l ord vid = .proceed c) := by
  refine ⟨fun l ord vid vid' => rfl, ?_, ?_⟩
  · intro l ord vid hlt
    unfold resolveSelection
    rw [if_neg (by omega)]
  · intro l ord vid c h1 hget
    have hlen : ord.toNat - 1 < l.length := (List.get?_eq_some.mp hget).choose
    unfold resolveSelection
    rw [if_pos (by omega)]
    unfold pyGetI
    rw [if_pos (by omega)]
    have : (ord - 1).toNat = ord.toNat - 1 := by omega
    rw [this, hget]

/-- C1 witness: the amended in-range clause at the counterexample's input. -/
theorem c1_stale_ordinal_witness :
    resolveSelection [sampleB1, sampleB2, sampleB3] 2 "idA2" =
      .proceed sampleB2 :=
  c1_stale_ordinal_silently_matched_amended.2.2
    [sampleB1, sampleB2, sampleB3] 2 "idA2" sampleB2 (by decide) (by decide)

/-! ## C2 -/

/-- C2 counterexample: a selection event with ordinal 0 — below the
smallest valid ordinal 1 — is not rejected with the invalid-selection
message.  `result_index = -1` passes the `result_index < len` guard, and
Python's negative indexing silently selects the *last* candidate of the
current list, whose download then proceeds. -/
theorem c2_ordinal_zero_counterexample :
    handleCallback "download_0_x" [sampleB1, sampleB2, sampleB3] =
      .proceed sampleB3 ∧
    handleCallback "download_0_x" [sampleB1, sampleB2, sampleB3] ≠
      .invalidSelection := by
  exact ⟨by decide, by decide⟩

/-- C2 amended: the orchestrator answers the invalid-selection message
exactly when `ordinal - 1 ≥ length` (so for every ordinal greater than
the list length, and for any positive ordinal on an empty list), and a
download never starts in that case.  Ordinals below 1 are *not* rejected
that way: ordinal `o ≤ 0` with `length + o - 1 ≥ 0` resolves through
Python negative indexing to the candidate at position `length + o - 1`
of the current list and proceeds to download it, while `o` so negative
that even the back-indexing misses raises `IndexError`, which surfaces
as the generic something-went-wrong reply. -/
theorem c2_out_of_range_rejection_amended :
    (∀ (l : List Candidate) (ord : Int) (vid : String),
      resolveSelection l ord vid = .invalidSelection ↔
        (l.length : Int) ≤ ord - 1) ∧
    (∀ (l : List Candidate) (ord : Int) (vid : String) (c : Candidate),
      ord ≤ 0 → 0 ≤ (l.length : Int) + (ord - 1) →
      l.get? ((l.length : Int) + (ord - 1)).toNat = some c →
      resolveSelection l ord vid = .proceed c) ∧
    (∀ (l : List Candidate) (ord : Int) (vid : String),
      (l.length : Int) + (ord - 1) < 0 →
      resolveSelection l ord vid = .somethingWentWrong) := by
  refine ⟨?_, ?_, ?_⟩
  · intro l ord vid
    unfold resolveSelection pyGetI
    constructor
    · intro h
      by_contra hlt
      rw [if_pos (by omega)] at h
      split at h <;> simp_all
    · intro hle
      rw [if_neg (by omega)]
  · intro l ord vid c h0 hnn hget
    unfold resolveSelection
    have hlen : ((l.length : Int) + (ord - 1)).toNat < l.length :=
      (List.get?_eq_some.mp hget).choose
    rw [if_pos (by omega)]
    unfold pyGetI
    rw [if_neg (by omega), if_pos (by omega), hget]
  · intro l ord vid hneg
    unfold resolveSelection
    rw [if_pos (by omega)]
    unfold pyGetI
    rw [if_neg (by omega), if_neg (by omega)]

/-- C2 witness: the amended clauses at concrete inputs — ordinal 4 on the
three-candidate list is rejected, ordinal 0 resolves to the last
candidate. -/
theorem c2_out_of_range_witness :
    resolveSelection [sampleB1, sampleB2, sampleB3] 4 "x" =
      .invalidSelection ∧
    resolveSelection [sampleB1, sampleB2, sampleB3] 0 "x" =
      .proceed sampleB3 :=
  ⟨(c2_out_of_range_rejection_amended.1 [sampleB1, sampleB2, sampleB3] 4 "x").mpr
      (by decide),
   c2_out_of_range_rejection_amended.2.1 [sampleB1, sampleB2, sampleB3] 0 "x"
      sampleB3 (by decide) (by decide) (by decide)⟩

/-! ## C4 -/

/-- C4: for timestamps parsing to `s` and `e` with `e > s`, the trim
subsystem hands the transcoder exactly start offset `s` (the `-ss`
argument) and duration `e - s` (the `-t` argument); for `e ≤ s` it
rejects before any transcoder command is built. -/
theorem c4_trim_transcoder_args :
    ∀ (a b inputPath outputPath : String) (s e : Nat),
      parseTimestamp a = .ok s → parseTimestamp b = .ok e →
      (s < e →
        cutPipeline a b inputPath outputPath =
          .ok ["ffmpeg", "-y",
               "-ss", toString (s : Int),
               "-t", toString ((e - s : Nat) : Int),
               "-i", inputPath, "-vn",
               "-acodec", "libmp3lame", "-b:a", "128k", outputPath]) ∧
      (e ≤ s →
        cutPipeline a b inputPath outputPath =
          .error "End must be greater than start") := by
  intro a b ip op s e hpa hpb
  constructor
  · intro hlt
    have hv : cutValidate a b = .ok (s, e) := by
      simp only [cutValidate, hpa, hpb]
      rw [if_neg (by omega)]
    simp only [cutPipeline, hv]
    unfold ffmpegCutAudio
    rw [if_neg (by omega)]
    unfold ffmpegCutCmd
    rw [(by omega : ((e : Int) - (s : Int)) = ((e - s : Nat) : Int))]
  · intro hle
    have hv : cutValidate a b = .error "End must be greater than start" := by
      simp only [cutValidate, hpa, hpb]
      rw [if_pos hle]
    simp only [cutPipeline, hv]

/-- C4 witness: `/cut 10 1:15` requests `-ss 10 -t 65`, and the swapped
pair `/cut 1:15 10` is rejected before the transcoder. -/
theorem c4_trim_transcoder_args_witness :
    cutPipeline "10" "1:15" "in.mp3" "out.mp3" =
      .ok ["ffmpeg", "-y", "-ss", "10", "-t", "65", "-i", "in.mp3", "-vn",
           "-acodec", "libmp3lame", "-b:a", "128k", "out.mp3"] ∧
    cutPipeline "1:15" "10" "in.mp3" "out.mp3" =
      .error "End must be greater than start" := by
  exact ⟨(c4_trim_transcoder_args "10" "1:15" "in.mp3" "out.mp3" 10 75 rfl rfl).1
      (by decide),
    (c4_trim_transcoder_args "1:15" "10" "in.mp3" "out.mp3" 75 10 rfl rfl).2
      (by decide)⟩

/-! ## C5 -/

/-- C5: the retry executor with `retries = 3` and an always-failing
operation makes exactly 4 calls (1 initial + 3 retries), propagates the
4th call's error unchanged, and computes the backoff before retry `k`
(k = 1, 2, 3) as `base_delay * 2^(k-1)` plus the uniform sample drawn
from `[0, jitter]`; each resulting delay lies between the pure
exponential backoff and the backoff plus the jitter bound. -/
theorem c5_retry_executor {ε α : Type} :
    ∀ (es : Nat → ε) (baseDelay jitter : ℚ) (u : Nat → ℚ),
      (∀ k, 0 ≤ u k ∧ u k ≤ jitter) →
      retryAsync (fun n => (Except.error (es n) : Except ε α)) 3
          baseDelay jitter u =
        (.error (es 3), 4,
         [baseDelay * 2 ^ 0 + u 1, baseDelay * 2 ^ 1 + u 2,
          baseDelay * 2 ^ 2 + u 3]) ∧
      (∀ k, 1 ≤ k → k ≤ 3 →
        baseDelay * 2 ^ (k - 1) ≤ baseDelay * 2 ^ (k - 1) + u k ∧
        baseDelay * 2 ^ (k - 1) + u k ≤ baseDelay * 2 ^ (k - 1) + jitter) := by
  intro es bd j u hu
  refine ⟨rfl, ?_⟩
  intro k _ _
  constructor
  · linarith [(hu k).1]
  · linarith [(hu k).2]

/-- C5 witness: base delay 1, jitter 0 (so the uniform sample is 0):
four calls, final error 3 (the 4th call's), delays `1·2^0`, `1·2^1`,
`1·2^2`. -/
theorem c5_retry_executor_witness :
    retryAsync (fun n => (Except.error n : Except Nat Unit)) 3 1 0
        (fun _ => 0) =
      (.error 3, 4, [1 * 2 ^ 0 + 0, 1 * 2 ^ 1 + 0, 1 * 2 ^ 2 + 0]) := by
  exact (c5_retry_executor (fun n => n) 1 0 (fun _ => 0)
    (fun _ => ⟨le_refl 0, le_refl 0⟩)).1

/-! ## C6 -/

/-- C6: whenever the downloaded file exceeds the 50MB hard limit, the
delivery phase reports the measured size, deletes the file, and stops:
no audio or document send occurs, no cache copy occurs, and the session's
last-audio state is unchanged. -/
theorem c6_oversize_rejection :
    ∀ (songFile : String) (info : SongInfo) (fileSize : Nat)
      (o : DeliverOracles) (sess : Session),
      50 * 1024 * 1024 < fileSize →
      (deliverDownloadedFile songFile info fileSize o sess).1 =
        [.editTooLarge fileSize, .removeFile songFile] ∧
      (deliverDownloadedFile songFile info fileSize o sess).2 = sess ∧
      (∀ p, DlEvent.sentAudio p ∉
        (deliverDownloadedFile songFile info fileSize o sess).1) ∧
      (∀ p, DlEvent.sentDocument p ∉
        (deliverDownloadedFile songFile info fileSize o sess).1) ∧
      (∀ p q, DlEvent.cacheCopy p q ∉
        (deliverDownloadedFile songFile info fileSize o sess).1) := by
  intro f info n o sess h
  have hred : deliverDownloadedFile f info n o sess =
      ([.editTooLarge n, .removeFile f], sess) := by
    unfold deliverDownloadedFile
    rw [if_pos h]
  rw [hred]
  refine ⟨rfl, rfl, fun p => by simp, fun p => by simp, fun p q => by simp⟩

/-- C6 witness: a 60MB download is rejected with its measured size, the
file is removed, and nothing is sent or cached. -/
theorem c6_oversize_rejection_witness :
    (deliverDownloadedFile "f.mp3" ⟨"T", "U", none⟩ (60 * 1024 * 1024)
        ⟨true, true, true⟩ emptySession).1 =
      [.editTooLarge (60 * 1024 * 1024), .removeFile "f.mp3"] ∧
    (deliverDownloadedFile "f.mp3" ⟨"T", "U", none⟩ (60 * 1024 * 1024)
        ⟨true, true, true⟩ emptySession).2 = emptySession ∧
    (∀ p, DlEvent.sentAudio p ∉
      (deliverDownloadedFile "f.mp3" ⟨"T", "U", none⟩ (60 * 1024 * 1024)
        ⟨true, true, true⟩ emptySession).1) ∧
    (∀ p, DlEvent.sentDocument p ∉
      (deliverDownloadedFile "f.mp3" ⟨"T", "U", none⟩ (60 * 1024 * 1024)
        ⟨true, true, true⟩ emptySession).1) ∧
    (∀ p q, DlEvent.cacheCopy p q ∉
      (deliverDownloadedFile "f.mp3" ⟨"T", "U", none⟩ (60 * 1024 * 1024)
        ⟨true, true, true⟩ emptySession).1) :=
  c6_oversize_rejection "f.mp3" ⟨"T", "U", none⟩ (60 * 1024 * 1024)
    ⟨true, true, true⟩ emptySession (by decide)

/-! ## C10 -/

/-- C10: when both the native-audio send and the document fallback fail
(and the file is within the size limit), the delivery phase still copies
the file into the cache and overwrites the session's last-audio state to
point at the cache copy — nothing was sent, yet a subsequent `/cut`
(here `/cut 0 10`) runs the transcoder on that never-delivered audio. -/
theorem c10_failed_send_still_caches :
    ∀ (songFile : String) (info : SongInfo) (fileSize : Nat)
      (o : DeliverOracles) (sess : Session),
      fileSize ≤ 50 * 1024 * 1024 →
      o.audioOk = false → o.docOk = false → o.cacheOk = true →
      (∀ p, DlEvent.sentAudio p ∉
        (deliverDownloadedFile songFile info fileSize o sess).1) ∧
      (∀ p, DlEvent.sentDocument p ∉
        (deliverDownloadedFile songFile info fileSize o sess).1) ∧
      DlEvent.cacheCopy songFile (cachedPathFor info) ∈
        (deliverDownloadedFile songFile info fileSize o sess).1 ∧
      DlEvent.editCouldNotSend ∈
        (deliverDownloadedFile songFile info fileSize o sess).1 ∧
      (deliverDownloadedFile songFile info fileSize o sess).2 =
        ⟨some (cachedPathFor info), some info.title, some info.uploader⟩ ∧
      CutEvent.ffmpegRun (cachedPathFor info) 0 10
          (cutOutputPath info.title 0 10) ∈
        cutCommand ["0", "10"]
          (deliverDownloadedFile songFile info fileSize o sess).2
          ⟨true, none, some 100, true⟩ [] := by
  intro f info n o sess hsz hao hdo hco
  obtain ⟨ao, dk, co⟩ := o
  cases hao
  cases hdo
  cases hco
  obtain ⟨ti, up, th⟩ := info
  have hred : deliverDownloadedFile f ⟨ti, up, th⟩ n ⟨false, false, true⟩ sess =
      ([.editUploading, .chatAction, .editSendingFailed,
        .cacheCopy f (cachedPathFor ⟨ti, up, th⟩), .editCouldNotSend,
        .removeFile f] ++
          (match th with
           | some t => [DlEvent.removeFile t]
           | none => []),
       ⟨some (cachedPathFor ⟨ti, up, th⟩), some ti, some up⟩) := by
    unfold deliverDownloadedFile
    rw [if_neg (by omega)]
    rfl
  rw [hred]
  have hval : cutValidate "0" "10" = .ok (0, 10) := rfl
  refine ⟨?_, ?_, ?_, ?_, rfl, ?_⟩
  · intro p
    cases th <;> simp
  · intro p
    cases th <;> simp
  · cases th <;> simp
  · cases th <;> simp
  · simp only [cutCommand, hval]
    simp [cutTranscodePhase]
    rw [hval]
    simp

/-- C10 witness: concrete failed delivery whose cache copy then feeds a
`/cut 0 10`. -/
theorem c10_failed_send_still_caches_witness :
    (∀ p, DlEvent.sentAudio p ∉
      (deliverDownloadedFile "f.mp3" ⟨"T", "U", none⟩ 1000
        ⟨false, false, true⟩ emptySession).1) ∧
    (∀ p, DlEvent.sentDocument p ∉
      (deliverDownloadedFile "f.mp3" ⟨"T", "U", none⟩ 1000
        ⟨false, false, true⟩ emptySession).1) ∧
    DlEvent.cacheCopy "f.mp3" (cachedPathFor ⟨"T", "U", none⟩) ∈
      (deliverDownloadedFile "f.mp3" ⟨"T", "U", none⟩ 1000
        ⟨false, false, true⟩ emptySession).1 ∧
    DlEvent.editCouldNotSend ∈
      (deliverDownloadedFile "f.mp3" ⟨"T", "U", none⟩ 1000
        ⟨false, false, true⟩ emptySession).1 ∧
    (deliverDownloadedFile "f.mp3" ⟨"T", "U", none⟩ 1000
      ⟨false, false, true⟩ emptySession).2 =
      ⟨some (cachedPathFor ⟨"T", "U", none⟩), some "T", some "U"⟩ ∧
    CutEvent.ffmpegRun (cachedPathFor ⟨"T", "U", none⟩) 0 10
        (cutOutputPath "T" 0 10) ∈
      cutCommand ["0", "10"]
        (deliverDownloadedFile "f.mp3" ⟨"T", "U", none⟩ 1000
          ⟨false, false, true⟩ emptySession).2
        ⟨true, none, some 100, true⟩ [] :=
  c10_failed_send_still_caches "f.mp3" ⟨"T", "U", none⟩ 1000
    ⟨false, false, true⟩ emptySession (by decide) rfl rfl rfl

/-! ## C7 -/

/-- When the transcoder succeeds, every outcome of the transcode phase
deletes the clip output file. -/
theorem removeClip_mem_phase (inputPath outP : String) (s e : Nat)
    (o : CutOracles) (h : o.ffmpegError = none) :
    CutEvent.removeClip outP ∈ cutTranscodePhase inputPath outP s e o := by
  unfold cutTranscodePhase
  rw [h]
  cases o.clipSize <;> cases o.sendOk <;> (try simp) <;> (try split_ifs) <;> simp

/-- Any transcoder-invocation event recorded by the transcode phase names
the phase's input and output paths. -/
theorem phase_ffmpegRun_eq {inputPath outP : String} {s e : Nat}
    {o : CutOracles} {i : String} {a d : Nat} {out : String}
    (h : CutEvent.ffmpegRun i a d out ∈ cutTranscodePhase inputPath outP s e o) :
    i = inputPath ∧ out = outP := by
  obtain ⟨ex, ff, csz, so⟩ := o
  unfold cutTranscodePhase at h
  cases ff <;> cases csz <;> cases so <;> simp at h <;>
    (try split_ifs at h) <;> (try simp at h) <;> tauto

/-- A transcoder invocation happens only on the main path of
`cut_command`: two arguments, valid timestamps, a recorded last-audio
path that exists on disk; and the event's paths are the session's audio
path and the derived output path. -/
theorem ffmpegRun_mem_cutCommand {args : List String} {sess : Session}
    {o : CutOracles} {expd : List String} {i : String} {a d : Nat}
    {out : String}
    (hmem : CutEvent.ffmpegRun i a d out ∈ cutCommand args sess o expd) :
    ∃ a0 a1 s e, args = [a0, a1] ∧ cutValidate a0 a1 = .ok (s, e) ∧
      sess.lastAudioPath = some i ∧ o.lastAudioExists = true ∧
      out = cutOutputPath (sess.lastAudioTitle.getD "audio") s e ∧
      cutCommand args sess o expd =
        (CutEvent.ensureCacheDir :: expd.map CutEvent.removeCacheFile) ++
          cutTranscodePhase i out s e o := by
  rcases args with _ | ⟨a0, rest⟩
  · exfalso
    revert hmem
    simp [cutCommand]
  rcases rest with _ | ⟨a1, rest2⟩
  · exfalso
    revert hmem
    simp [cutCommand]
  rcases rest2 with _ | ⟨a2, rest3⟩
  · rcases hval : cutValidate a0 a1 with m | ⟨s, e⟩
    · exfalso
      revert hmem
      simp [cutCommand, hval]
    · rcases hpath : sess.lastAudioPath with _ | inputPath
      · exfalso
        revert hmem
        simp [cutCommand, hval, hpath]
      · by_cases hex : o.lastAudioExists
        · have hred : cutCommand [a0, a1] sess o expd =
              (CutEvent.ensureCacheDir :: expd.map CutEvent.removeCacheFile) ++
                cutTranscodePhase inputPath
                  (cutOutputPath (sess.lastAudioTitle.getD "audio") s e) s e o := by
            simp [cutCommand, hval, hpath, hex]
          rw [hred] at hmem
          have hph : CutEvent.ffmpegRun i a d out ∈
              cutTranscodePhase inputPath
                (cutOutputPath (sess.lastAudioTitle.getD "audio") s e) s e o := by
            rcases List.mem_append.mp hmem with hsw | hsw
            · exact absurd hsw (by simp)
            · exact hsw
          obtain ⟨hi, hout⟩ := phase_ffmpegRun_eq hph
          subst hi
          subst hout
          exact ⟨a0, a1, s, e, rfl, hval, rfl, hex, rfl, hred⟩
        · exfalso
          revert hmem
          simp [cutCommand, hval, hpath, hex]
  · exfalso
    revert hmem
    simp [cutCommand]

/-- C7 counterexample: a trim on which the transcoder fails ends with the
failure edit and never deletes the clip output path — the claim's
"regardless of outcome" does not hold for transcoder failure. -/
theorem c7_transcoder_failure_counterexample :
    cutCommand ["0", "10"] sampleSession ⟨true, some "boom", none, true⟩ [] =
      [.ensureCacheDir, .ensureCacheDir, .progressMsg,
       .ffmpegRun "cache/song.mp3" 0 10 "cache/Song-cut-0-10.mp3",
       .editCutFailed "boom"] ∧
    CutEvent.removeClip "cache/Song-cut-0-10.mp3" ∉
      cutCommand ["0", "10"] sampleSession ⟨true, some "boom", none, true⟩ [] := by
  exact ⟨by decide, by decide⟩

/-- C7 amended: on every trim invocation in which the transcoder is
actually invoked and does not fail, the clip output file is deleted
before the command completes, on all outcomes (successful delivery,
over-size rejection, send failure); on transcoder failure the command
returns without deleting the clip output path. -/
theorem c7_clip_cleanup_amended :
    ∀ (args : List String) (sess : Session) (o : CutOracles)
      (expiredCache : List String) (i : String) (a d : Nat) (out : String),
      o.ffmpegError = none →
      CutEvent.ffmpegRun i a d out ∈ cutCommand args sess o expiredCache →
      CutEvent.removeClip out ∈ cutCommand args sess o expiredCache := by
  intro args sess o expd i a d out hff hmem
  obtain ⟨a0, a1, s, e, -, -, -, -, -, hred⟩ := ffmpegRun_mem_cutCommand hmem
  rw [hred]
  exact List.mem_append_right _ (removeClip_mem_phase _ _ _ _ _ hff)

/-- C7 witness: the amended statement at a successful-delivery run. -/
theorem c7_clip_cleanup_witness :
    CutEvent.removeClip "cache/Song-cut-0-10.mp3" ∈
      cutCommand ["0", "10"] sampleSession ⟨true, none, some 100, true⟩ [] :=
  c7_clip_cleanup_amended ["0", "10"] sampleSession ⟨true, none, some 100, true⟩
    [] "cache/song.mp3" 0 10 "cache/Song-cut-0-10.mp3" rfl (by decide)

/-! ## C8 -/

/-- C8 counterexample: a `/cut` issued with no delivered audio on record
still deletes an expired cache file (the sweep at the top of
`cut_command`) before failing with the guidance message — the claim's
"no file created, deleted, or modified" does not hold. -/
theorem c8_sweep_side_effect_counterexample :
    cutCommand ["0", "10"] emptySession ⟨true, none, none, true⟩
        ["cache/old.mp3"] =
      [.ensureCacheDir, .removeCacheFile "cache/old.mp3", .noLastAudio] ∧
    CutEvent.removeCacheFile "cache/old.mp3" ∈
      cutCommand ["0", "10"] emptySession ⟨true, none, none, true⟩
        ["cache/old.mp3"] ∧
    CutEvent.noLastAudio ∈
      cutCommand ["0", "10"] emptySession ⟨true, none, none, true⟩
        ["cache/old.mp3"] := by
  exact ⟨by decide, by decide, by decide⟩

/-- C8 amended: a trim reads only the session's last-delivered audio path
as transcoder input (every transcoder invocation names exactly that path,
and only happens when the path is recorded and present on disk); when the
path is absent from the session or missing on disk the command answers in
guidance and performs nothing beyond the opportunistic cache sweep — but
that sweep runs first on every invocation and may delete expired cache
files (and create the cache directory) even on this failure path. -/
theorem c8_trim_missing_audio_amended :
    (∀ (a b : String) (s e : Nat) (sess : Session) (o : CutOracles)
       (expiredCache : List String),
      cutValidate a b = .ok (s, e) →
      sess.lastAudioPath = none ∨ o.lastAudioExists = false →
      cutCommand [a, b] sess o expiredCache =
        (CutEvent.ensureCacheDir :: expiredCache.map CutEvent.removeCacheFile) ++
          [CutEvent.noLastAudio]) ∧
    (∀ (args : List String) (sess : Session) (o : CutOracles)
       (expiredCache : List String) (i : String) (a d : Nat) (out : String),
      CutEvent.ffmpegRun i a d out ∈ cutCommand args sess o expiredCache →
      sess.lastAudioPath = some i ∧ o.lastAudioExists = true) := by
  constructor
  · intro a b s e sess o expd hval hmiss
    rcases hmiss with hnone | hex
    · simp [cutCommand, hval, hnone]
    · rcases hpath : sess.lastAudioPath with _ | inputPath
      · simp [cutCommand, hval, hpath]
      · simp [cutCommand, hval, hpath, hex]
  · intro args sess o expd i a d out hmem
    obtain ⟨a0, a1, s, e, -, -, hpath, hex, -, -⟩ := ffmpegRun_mem_cutCommand hmem
    exact ⟨hpath, hex⟩

/-- C8 witness: the amended missing-audio clause at the counterexample's
input: only the sweep and the guidance reply happen. -/
theorem c8_trim_missing_audio_witness :
    cutCommand ["0", "10"] emptySession ⟨true, none, none, true⟩
        ["cache/old.mp3"] =
      (CutEvent.ensureCacheDir ::
        ["cache/old.mp3"].map CutEvent.removeCacheFile) ++
        [CutEvent.noLastAudio] :=
  c8_trim_missing_audio_amended.1 "0" "10" 0 10 emptySession
    ⟨true, none, none, true⟩ ["cache/old.mp3"] rfl (Or.inl rfl)

/-! ## C9 -/

/-- `roundHalfEven n 1000` is the integer nearest to `n / 1000`
(within half, i.e. 500). -/
theorem roundHalfEven_1000_bounds (n : Nat) :
    roundHalfEven n 1000 * 1000 ≤ n + 500 ∧
    n ≤ roundHalfEven n 1000 * 1000 + 500 := by
  unfold roundHalfEven
  dsimp only []
  split_ifs <;> omega

/-- `roundHalfEven n 100000` is the tenth-of-a-million count nearest to
`n / 100000` (within half, i.e. 50000). -/
theorem roundHalfEven_100000_bounds (n : Nat) :
    roundHalfEven n 100000 * 100000 ≤ n + 50000 ∧
    n ≤ roundHalfEven n 100000 * 100000 + 50000 := by
  unfold roundHalfEven
  dsimp only []
  split_ifs <;> omega

/-- C9 counterexample: a present view count of 0 is rendered as
"Views not available", not as the literal count "0 views" — `search_songs`
stores absent counts as the integer 0, and the humanization's Python
truthiness test cannot tell a genuine zero count from an absent one. -/
theorem c9_zero_views_counterexample :
    candidateViewCount (some 0) = 0 ∧
    viewText (candidateViewCount (some 0)) = "Views not available" ∧
    viewText (candidateViewCount (some 0)) ≠ "0 views" := by
  exact ⟨rfl, rfl, by decide⟩

/-- C9 amended: view counts are carried as integers with absent counts
stored as 0, and a zero count (absent or genuine) renders as
"Views not available".  Nonzero counts follow the claimed tiers:
`n ≥ 10^6` renders as the one-decimal rendering of `n / 10^6` (nearest
tenth, ties to even as modelled) followed by "M views"; `10^3 ≤ n < 10^6`
renders as the integer nearest to `n / 10^3` (ties to even, so 2,500
gives "2K views" — rounding, not floor) followed by "K views"; `1 ≤ n <
10^3` renders as the literal count followed by " views". -/
theorem c9_view_humanization_amended :
    viewText 1500000 = "1.5M views" ∧
    viewText 2500 = "2K views" ∧
    viewText 500 = "500 views" ∧
    candidateViewCount none = 0 ∧
    viewText 0 = "Views not available" ∧
    (∀ n, 1000000 ≤ n →
      viewText n =
        toString (roundHalfEven n 100000 / 10) ++ "." ++
          toString (roundHalfEven n 100000 % 10) ++ "M views" ∧
      roundHalfEven n 100000 * 100000 ≤ n + 50000 ∧
      n ≤ roundHalfEven n 100000 * 100000 + 50000) ∧
    (∀ n, 1000 ≤ n → n < 1000000 →
      viewText n = toString (roundHalfEven n 1000) ++ "K views" ∧
      roundHalfEven n 1000 * 1000 ≤ n + 500 ∧
      n ≤ roundHalfEven n 1000 * 1000 + 500) ∧
    (∀ n, 1 ≤ n → n < 1000 → viewText n = toString n ++ " views") := by
  refine ⟨rfl, rfl, rfl, rfl, rfl, ?_, ?_, ?_⟩
  · intro n hn
    refine ⟨?_, roundHalfEven_100000_bounds n⟩
    unfold viewText fmtMillions
    rw [if_pos (by omega : n ≠ 0), if_pos hn]
  · intro n h1 h2
    refine ⟨?_, roundHalfEven_1000_bounds n⟩
    unfold viewText
    rw [if_pos (by omega : n ≠ 0), if_neg (by omega), if_pos h1]
  · intro n h1 h2
    unfold viewText
    rw [if_pos (by omega : n ≠ 0), if_neg (by omega), if_neg (by omega)]

/-- C9 witness: the K tier at the tie 2,500 — nearest integer within
half, rendered "2K views". -/
theorem c9_view_humanization_witness :
    viewText 2500 = toString (roundHalfEven 2500 1000) ++ "K views" ∧
    roundHalfEven 2500 1000 * 1000 ≤ 2500 + 500 ∧
    2500 ≤ roundHalfEven 2500 1000 * 1000 + 500 :=
  c9_view_humanization_amended.2.2.2.2.2.2.1 2500 (by decide) (by decide)

end AudioDrip
